import Mathlib

/-!
Shallow embedding of `backend/main.py` (YOLOv8 Detection API): the two detection
endpoints `POST /detect` and `POST /detect-json`, their shared aggregation of the
engine's raw detections, the metadata header construction, the boundary
validation of the `confidence` query parameter, and the `GET /health` report.
External collaborators (image decoding, the model's `predict`, annotation
plotting, base64) are abstracted as an environment record; the handlers' own
control flow, including the blanket `except Exception` clauses, is embedded
faithfully.
-/

/-- A raw detection produced by the engine (`results[0].boxes`): integer class
id, confidence score, and the box corner coordinates as pixel-space numbers. -/
structure RawDetection where
  cls : Nat
  conf : ℚ
  bbox : List ℚ
deriving DecidableEq

/-- An entry of the `detections_list` the handlers build: the class id resolved
to a name through `results[0].names`, the confidence, and the box as a list. -/
structure DetEntry where
  className : String
  confidence : ℚ
  bbox : List ℚ
deriving DecidableEq

/-- An uploaded file as the handlers see it: declared content type, filename,
and the bytes returned by `await file.read()`. -/
structure UploadFile where
  content_type : String
  filename : String
  contents : List Nat
deriving DecidableEq

/-- The external collaborators a request handler calls, abstracted: the outcome
of `Image.open` plus RGB conversion, the outcome of `model.predict` as a
function of the confidence threshold (yielding `results[0].boxes`, which may be
absent), the class-name table `results[0].names`, the PNG bytes produced by
`results[0].plot()` plus PIL re-encoding, the base64 encoder, and the measured
processing time in seconds. -/
structure Env where
  decode : Except String Unit
  predict : ℚ → Except String (Option (List RawDetection))
  names : Nat → String
  plotPng : List Nat
  b64 : List Nat → String
  procTime : ℚ

/-- A Python exception as observed by the blanket `except Exception` clauses:
either a `fastapi.HTTPException` (which subclasses `Exception` and is therefore
caught by them) or any other exception carrying a message. -/
inductive PyExn where
  | http : Nat → String → PyExn
  | other : String → PyExn
deriving DecidableEq

/-- Python's `str(e)`: starlette's `HTTPException.__str__` prints
`"<status>: <detail>"`, other exceptions print their message. -/
def PyExn.str : PyExn → String
  | .http code detail => toString code ++ ": " ++ detail
  | .other m => m

/-- numpy's `.max()` over the confidence array; the handlers only apply it under
a `len(boxes) > 0` guard, so the empty case is unreachable in the embedding
(numpy raises on an empty array). -/
def npMax : List ℚ → ℚ
  | [] => 0
  | x :: xs => xs.foldl max x

/-- Lines 129-149 and 232-251 (identical in the two handlers): fold
`results[0].boxes` into `(detection_count, max_confidence, detections_list)`.
A missing (`None`) or empty box set yields `(0, 0.0, [])`. -/
def processBoxes (boxes : Option (List RawDetection)) (names : Nat → String) :
    Nat × ℚ × List DetEntry :=
  match boxes with
  | none => (0, 0, [])
  | some bs =>
    if bs.length > 0 then
      (bs.length,
       npMax (bs.map (fun b => b.conf)),
       bs.map (fun b => { className := names b.cls, confidence := b.conf, bbox := b.bbox }))
    else (0, 0, [])

/-- Round `q * 1000` to the nearest integer, ties to even — the rounding of
Python's fixed three-decimal float formatting — computed on the numerator and
denominator with integer arithmetic (`d > 0`, so `ediv`/`emod` is floor
division and `2r` against `d` compares the fractional part against 1/2). -/
def rnd1000 (q : ℚ) : ℤ :=
  let a := q.num * 1000
  let d := (q.den : ℤ)
  let f := Int.ediv a d
  let r2 := 2 * Int.emod a d
  if r2 < d then f
  else if d < r2 then f + 1
  else if Int.emod f 2 = 0 then f else f + 1

/-- Left-pad the fractional part to three digits. -/
def pad3 (n : Nat) : String :=
  if n < 10 then "00" ++ toString n
  else if n < 100 then "0" ++ toString n
  else toString n

/-- Python's `f"{q:.3f}"` fixed three-decimal formatting of a nonnegative
value, as used for the metadata header strings. -/
def fmt3 (q : ℚ) : String :=
  let n := (rnd1000 q).toNat
  toString (n / 1000) ++ "." ++ pad3 (n % 1000)

/-- A string is a fixed three-decimal numeral: an integer part, a dot, and a
three-character zero-padded fractional part. -/
def Fixed3 (s : String) : Prop :=
  ∃ (n m : Nat), m < 1000 ∧ s = toString n ++ "." ++ pad3 m ∧ (pad3 m).length = 3

/-- The rational 1/8 (a processing time of 0.125 s) in normalized form. -/
def timeEighth : ℚ := mkRat 1 8

/-- The rational 0.91 (a confidence of 91%) in normalized form. -/
def conf91 : ℚ := mkRat 91 100

/-- Line 159: the value of `Access-Control-Expose-Headers`. -/
def exposeList : String :=
  "X-Objects-Found, X-Detections, X-Confidence-Score, X-Processing-Time"

/-- The custom header names listed by `Access-Control-Expose-Headers`. -/
def exposedNames : List String :=
  ["X-Objects-Found", "X-Detections", "X-Confidence-Score", "X-Processing-Time"]

/-- Lines 154-160: the header map attached to every successful `/detect`
response (both the detections-present and the no-detection branch). -/
def buildHeaders (detection_count : Nat) (max_confidence processing_time : ℚ) :
    List (String × String) :=
  [("X-Objects-Found", if detection_count > 0 then "true" else "false"),
   ("X-Detections", toString detection_count),
   ("X-Confidence-Score", fmt3 max_confidence),
   ("X-Processing-Time", fmt3 processing_time),
   ("Access-Control-Expose-Headers", exposeList)]

/-- A `StreamingResponse` as returned by `/detect`: body bytes, media type and
header map (HTTP status 200). -/
structure BinaryResponse where
  body : List Nat
  media_type : String
  headers : List (String × String)
deriving DecidableEq

/-- Outcome of `POST /detect` at the transport level: a streamed 200 response,
or an `HTTPException` surfaced with its status code and detail. -/
inductive DetectOutcome where
  | ok : BinaryResponse → DetectOutcome
  | httpError : Nat → String → DetectOutcome
deriving DecidableEq

/-- Line 109 / 212: the invalid-content-type message. -/
def invalidTypeMsg : String := "Invalid file type. Use JPEG or PNG"

/-- Lines 108 and 209: the accepted content types. -/
def allowedTypes : List String := ["image/jpeg", "image/png", "image/jpg"]

/-- The body of the `try:` block of `detect_objects` (lines 106-191): type
validation (raising `HTTPException(400, ...)`), decode, inference, aggregation,
header construction, and the choice between the annotated-PNG response and the
original-bytes response. -/
def detect_body (env : Env) (file : UploadFile) (confidence : ℚ) :
    Except PyExn BinaryResponse :=
  if file.content_type ∈ allowedTypes then
    match env.decode with
    | .error m => .error (.other m)
    | .ok _ =>
      match env.predict confidence with
      | .error m => .error (.other m)
      | .ok boxes =>
        let contents := file.contents
        let agg := processBoxes boxes env.names
        let headers := buildHeaders agg.1 agg.2.1 env.procTime
        if agg.1 > 0 then
          .ok { body := env.plotPng, media_type := "image/png", headers := headers }
        else
          .ok { body := contents, media_type := file.content_type, headers := headers }
  else .error (.http 400 invalidTypeMsg)

/-- `detect_objects` (lines 89-195): the `try` body wrapped by the blanket
`except Exception as e` clause, which re-raises every exception — including the
handler's own `HTTPException(400, ...)` — as
`HTTPException(500, "Processing failed: " + str(e))`. -/
def detect_objects (env : Env) (file : UploadFile) (confidence : ℚ) : DetectOutcome :=
  match detect_body env file confidence with
  | .ok r => .ok r
  | .error e => .httpError 500 ("Processing failed: " ++ e.str)

/-- FastAPI's boundary validation of `confidence: float = Query(0.25, ge=0.0,
le=1.0)` (lines 92 and 200): an absent parameter defaults to 0.25; out-of-range
values are rejected with a 422 validation error before the handler runs. -/
def parseConfidence (p : Option ℚ) : Except String ℚ :=
  match p with
  | none => .ok (1/4)
  | some c =>
    if c < 0 then .error "Input should be greater than or equal to 0"
    else if 1 < c then .error "Input should be less than or equal to 1"
    else .ok c

/-- The routed `POST /detect` endpoint: query-parameter validation by the
framework, then the handler. -/
def detect_route (env : Env) (file : UploadFile) (p : Option ℚ) : DetectOutcome :=
  match parseConfidence p with
  | .error m => .httpError 422 m
  | .ok c => detect_objects env file c

/-- The JSON body shapes `/detect-json` can produce: the bare `{"error": ...}`
of the invalid-type branch (line 212), the full success document (lines
271-280), or the `{"success": false, "error": ...}` of the `except` clause
(lines 284-287). -/
inductive JsonBody where
  | errorOnly (error : String)
  | success (objects_found : Bool) (detection_count : Nat) (max_confidence : ℚ)
      (processing_time : ℚ) (detections : List DetEntry) (filename : String)
      (image_base64 : String)
  | failure (error : String)
deriving DecidableEq

/-- A JSON response: HTTP status code and body document. A plainly returned
dict carries status 200; the explicit `JSONResponse(status_code=400, ...)`
carries 400. -/
structure JsonResponse where
  status_code : Nat
  body : JsonBody
deriving DecidableEq

/-- `detect_objects_json` (lines 197-287), including its `except` clause: type
validation returning a 400 JSON error body, then decode, inference, aggregation
and the success document; any exception after validation is reported in-band as
`{"success": false, "error": str(e)}` with status 200. -/
def detect_objects_json (env : Env) (file : UploadFile) (confidence : ℚ) : JsonResponse :=
  if file.content_type ∈ allowedTypes then
    match env.decode with
    | .error m => { status_code := 200, body := .failure m }
    | .ok _ =>
      match env.predict confidence with
      | .error m => { status_code := 200, body := .failure m }
      | .ok boxes =>
        let contents := file.contents
        let agg := processBoxes boxes env.names
        let img_base64 := if agg.1 > 0 then env.b64 env.plotPng else env.b64 contents
        { status_code := 200,
          body := .success (decide (agg.1 > 0)) agg.1 agg.2.1 env.procTime agg.2.2
            file.filename
            (if agg.1 > 0 then "data:image/png;base64," ++ img_base64
             else "data:" ++ file.content_type ++ ";base64," ++ img_base64) }
  else { status_code := 400, body := .errorOnly invalidTypeMsg }

/-- Outcome of routed `POST /detect-json`: the handler's `JsonResponse`, or the
framework's 422 validation rejection of the query parameter. -/
inductive JsonOutcome where
  | response : JsonResponse → JsonOutcome
  | validationError : Nat → String → JsonOutcome
deriving DecidableEq

/-- The routed `POST /detect-json` endpoint. -/
def detect_json_route (env : Env) (file : UploadFile) (p : Option ℚ) : JsonOutcome :=
  match parseConfidence p with
  | .error m => .validationError 422 m
  | .ok c => .response (detect_objects_json env file c)

/-- The process-wide globals read by `health_check`: the model reference
(possibly still `None`), the device string, and CUDA availability. -/
structure ProcessState (M : Type) where
  model : Option M
  device : Option String
  cuda_available : Bool

/-- The document returned by `GET /health`. -/
structure HealthDoc where
  status : String
  model_loaded : Bool
  device : Option String
  cuda_available : Bool
  timestamp : String
  endpoints : List (String × String × String)

/-- `health_check` (lines 289-303). -/
def health_check {M : Type} (s : ProcessState M) (timestamp : String) : HealthDoc :=
  { status := "healthy",
    model_loaded := s.model.isSome,
    device := s.device,
    cuda_available := s.cuda_available,
    timestamp := timestamp,
    endpoints := [("/detect", "POST", "Image detection"),
                  ("/detect-json", "POST", "JSON detection"),
                  ("/health", "GET", "Health check")] }

/-- A concrete JPEG upload used to evaluate the endpoints. -/
def fileJpeg : UploadFile :=
  { content_type := "image/jpeg", filename := "a.jpg", contents := [255, 216, 1, 2] }

/-- A concrete GIF upload (unsupported declared type). -/
def fileGif : UploadFile :=
  { content_type := "image/gif", filename := "a.gif", contents := [71, 73, 70] }

/-- A concrete environment whose engine reports no detections. -/
def envNone : Env :=
  { decode := .ok (),
    predict := fun _ => .ok (some []),
    names := fun _ => "",
    plotPng := [],
    b64 := fun _ => "QUJD",
    procTime := timeEighth }

/-- A concrete raw detection: class 0 at confidence 0.91. -/
def detOne : RawDetection := { cls := 0, conf := conf91, bbox := [0, 0, 10, 10] }

/-- A concrete environment whose engine reports the single detection
`detOne`. -/
def envOne : Env :=
  { decode := .ok (),
    predict := fun _ => .ok (some [detOne]),
    names := fun n => if n = 0 then "coyote" else "other",
    plotPng := [137, 80, 78, 71],
    b64 := fun _ => "UE5H",
    procTime := timeEighth }

/-- A concrete environment whose decode step raises. -/
def envBadImage : Env :=
  { decode := .error "cannot identify image file",
    predict := fun _ => .ok none,
    names := fun _ => "",
    plotPng := [],
    b64 := fun _ => "",
    procTime := 0 }

/-! ## Helper lemmas -/

/-- Folding `max` over a list yields the accumulator or a list element. -/
theorem foldl_max_mem (l : List ℚ) : ∀ a : ℚ, l.foldl max a = a ∨ l.foldl max a ∈ l := by
  induction l with
  | nil => intro a; exact Or.inl rfl
  | cons x xs ih =>
    intro a
    rcases ih (max a x) with h | h
    · rcases max_choice a x with hc | hc
      · exact Or.inl (by simpa [hc] using h)
      · refine Or.inr (List.mem_cons.mpr (Or.inl ?_))
        simpa [hc] using h
    · exact Or.inr (List.mem_cons.mpr (Or.inr (by simpa using h)))

/-- Folding `max` over a list bounds the accumulator and every element. -/
theorem le_foldl_max (l : List ℚ) :
    ∀ a : ℚ, a ≤ l.foldl max a ∧ ∀ q ∈ l, q ≤ l.foldl max a := by
  induction l with
  | nil => intro a; exact ⟨le_refl a, by simp⟩
  | cons x xs ih =>
    intro a
    obtain ⟨h1, h2⟩ := ih (max a x)
    refine ⟨le_trans (le_max_left a x) h1, ?_⟩
    intro q hq
    rcases List.mem_cons.mp hq with rfl | hq
    · exact le_trans (le_max_right a q) h1
    · exact h2 q hq

/-- On a nonempty list, `npMax` returns an element of the list. -/
theorem npMax_mem (x : ℚ) (xs : List ℚ) : npMax (x :: xs) ∈ x :: xs := by
  rcases foldl_max_mem xs x with h | h
  · exact List.mem_cons.mpr (Or.inl (by simpa [npMax] using h))
  · exact List.mem_cons.mpr (Or.inr (by simpa [npMax] using h))

/-- On a nonempty list, `npMax` is an upper bound of the list. -/
theorem le_npMax (x : ℚ) (xs : List ℚ) : ∀ q ∈ x :: xs, q ≤ npMax (x :: xs) := by
  intro q hq
  obtain ⟨h1, h2⟩ := le_foldl_max xs x
  rcases List.mem_cons.mp hq with rfl | hq
  · simpa [npMax] using h1
  · simpa [npMax] using h2 q hq

/-- When aggregation reports a zero count, the aggregated maximum confidence is
the initial `0.0` from line 131. -/
theorem processBoxes_max_zero (boxes : Option (List RawDetection)) (names : Nat → String)
    (h : (processBoxes boxes names).1 = 0) : (processBoxes boxes names).2.1 = 0 := by
  match boxes with
  | none => rfl
  | some [] => rfl
  | some (b :: bs') => simp [processBoxes] at h

/-- When validation, decode and inference all succeed, `detect_objects` reduces
to the two-way branch on the detection count, each branch a streamed response
carrying the headers built from the aggregate. -/
theorem detect_objects_success_shape (env : Env) (file : UploadFile) (c : ℚ)
    (boxes : Option (List RawDetection))
    (hct : file.content_type ∈ allowedTypes) (hdec : env.decode = .ok ())
    (hpred : env.predict c = .ok boxes) :
    detect_objects env file c =
      (if (processBoxes boxes env.names).1 > 0 then
        DetectOutcome.ok
          { body := env.plotPng, media_type := "image/png",
            headers := buildHeaders (processBoxes boxes env.names).1
              (processBoxes boxes env.names).2.1 env.procTime }
      else
        DetectOutcome.ok
          { body := file.contents, media_type := file.content_type,
            headers := buildHeaders (processBoxes boxes env.names).1
              (processBoxes boxes env.names).2.1 env.procTime }) := by
  by_cases hpos : (processBoxes boxes env.names).1 > 0
  · simp [detect_objects, detect_body, hct, hdec, hpred, hpos]
  · simp [detect_objects, detect_body, hct, hdec, hpred, hpos]

set_option maxRecDepth 10000 in
/-- Every fractional part below 1000 pads to exactly three characters. -/
theorem pad3_length : ∀ m : Fin 1000, (pad3 m.val).length = 3 := by decide

/-- `fmt3` always produces a fixed three-decimal string. -/
theorem fmt3_fixed3 (q : ℚ) : Fixed3 (fmt3 q) :=
  ⟨(rnd1000 q).toNat / 1000, (rnd1000 q).toNat % 1000,
   Nat.mod_lt _ (by norm_num), rfl,
   pad3_length ⟨(rnd1000 q).toNat % 1000, Nat.mod_lt _ (by norm_num)⟩⟩

/-! ## Claim theorems -/

/-- Claim C10: `GET /health` reports status "healthy" for every process state,
including when the model reference is still `None`, and `model_loaded` equals
whether the process-wide model reference is non-null. -/
theorem C10_health_always_healthy {M : Type} (s : ProcessState M) (t : String) :
    (health_check s t).status = "healthy" ∧
    (health_check s t).model_loaded = s.model.isSome ∧
    (health_check ({ model := none, device := none, cuda_available := false } :
        ProcessState M) t).status = "healthy" ∧
    (health_check ({ model := none, device := none, cuda_available := false } :
        ProcessState M) t).model_loaded = false :=
  ⟨rfl, rfl, rfl, rfl⟩

/-- Claim C1 (code bug): the spec requires a client-error response for an
unsupported content type on `POST /detect`, and line 109 indeed raises
`HTTPException(400, ...)` — but that raise sits inside the `try:` block, so the
blanket `except Exception` clause at line 193 catches the handler's own 400 and
re-raises it as a 500 server error. Evaluating the endpoint at the failing
input (a GIF upload, any environment — so no inference is performed): the
response is a 500 server error whose detail wraps the intended 400 message,
not a client error. -/
theorem C1_invalid_type_becomes_500 (env : Env) :
    detect_route env fileGif none =
      DetectOutcome.httpError 500 ("Processing failed: 400: " ++ invalidTypeMsg) := rfl

/-- Claim C2 counterexample: on an unsupported content type, `/detect-json`
returns a transport-level 400 status whose body is the bare error object of
line 212 — not a success-status document with a `success=false` field — so the
claim that every failure is reported in-band with a success status is false. -/
theorem C2_counterexample :
    detect_json_route envNone fileGif none =
      JsonOutcome.response { status_code := 400, body := JsonBody.errorOnly invalidTypeMsg } := rfl

/-- Claim C2 amended: `/detect-json` reports every failure occurring *after*
content-type validation (decode failure, inference failure) in-band as a
status-200 document with `success=false` and the error message; an invalid
declared content type is the one exception, answered with a 400 JSON body
holding only the error message. -/
theorem C2_amended_json_error_policy (env : Env) (file : UploadFile) (c : ℚ) :
    (file.content_type ∉ allowedTypes →
      detect_objects_json env file c =
        { status_code := 400, body := JsonBody.errorOnly invalidTypeMsg }) ∧
    (file.content_type ∈ allowedTypes → ∀ m, env.decode = .error m →
      detect_objects_json env file c = { status_code := 200, body := JsonBody.failure m }) ∧
    (file.content_type ∈ allowedTypes → env.decode = .ok () → ∀ m, env.predict c = .error m →
      detect_objects_json env file c = { status_code := 200, body := JsonBody.failure m }) := by
  refine ⟨fun h => ?_, fun h m hm => ?_, fun h hd m hm => ?_⟩
  · simp [detect_objects_json, h]
  · simp [detect_objects_json, h, hm]
  · simp [detect_objects_json, h, hd, hm]

/-- Claim C2 amended, witness: a decode failure on a JPEG upload is reported
in-band with status 200 and `success=false`. -/
theorem C2_amended_witness :
    detect_objects_json envBadImage fileJpeg (mkRat 1 4) =
      { status_code := 200, body := JsonBody.failure "cannot identify image file" } :=
  (C2_amended_json_error_policy envBadImage fileJpeg (mkRat 1 4)).2.1 (by decide) _ rfl

/-- Claim C3 counterexample: a successful `/detect` run with zero detections
still carries the `X-Confidence-Score` header (value "0.000"), because the
header map of lines 154-160 is built unconditionally before the branch — so the
claimed "present if and only if at least one detection exists" is false, as is
the claim that only the other three custom headers accompany a no-detection
response. -/
theorem C3_counterexample :
    detect_route envNone fileJpeg none =
      DetectOutcome.ok
        { body := [255, 216, 1, 2], media_type := "image/jpeg",
          headers := [("X-Objects-Found", "false"), ("X-Detections", "0"),
                      ("X-Confidence-Score", "0.000"), ("X-Processing-Time", "0.125"),
                      ("Access-Control-Expose-Headers", exposeList)] } := by decide

/-- Claim C3 amended: on every successful `/detect` response the
`X-Confidence-Score` header is present — also when no detections exist, where
it carries "0.000" — and the zero-detection response carries exactly
`X-Objects-Found=false`, `X-Detections=0`, `X-Confidence-Score=0.000`,
`X-Processing-Time`, and the expose list. -/
theorem C3_amended_header_always_present (env : Env) (file : UploadFile) (c : ℚ)
    (boxes : Option (List RawDetection))
    (hct : file.content_type ∈ allowedTypes) (hdec : env.decode = .ok ())
    (hpred : env.predict c = .ok boxes) :
    ∃ r, detect_objects env file c = DetectOutcome.ok r ∧
      ("X-Confidence-Score", fmt3 (processBoxes boxes env.names).2.1) ∈ r.headers ∧
      ((processBoxes boxes env.names).1 = 0 →
        r.headers = [("X-Objects-Found", "false"), ("X-Detections", "0"),
                     ("X-Confidence-Score", "0.000"),
                     ("X-Processing-Time", fmt3 env.procTime),
                     ("Access-Control-Expose-Headers", exposeList)]) := by
  have hshape := detect_objects_success_shape env file c boxes hct hdec hpred
  by_cases hpos : (processBoxes boxes env.names).1 > 0
  · rw [hshape, if_pos hpos]
    refine ⟨_, rfl, ?_, fun h => absurd h (by omega)⟩
    simp [buildHeaders]
  · rw [hshape, if_neg hpos]
    refine ⟨_, rfl, ?_, fun h => ?_⟩
    · simp [buildHeaders]
    · have hmax := processBoxes_max_zero boxes env.names h
      simp [buildHeaders, h, hmax]
      exact ⟨by decide, by decide⟩

/-- Claim C3 amended, witness: the no-detection JPEG run carries all five
headers, `X-Confidence-Score` included. -/
theorem C3_amended_witness :
    ∃ r, detect_objects envNone fileJpeg (mkRat 1 4) = DetectOutcome.ok r ∧
      ("X-Confidence-Score", fmt3 (processBoxes (some []) envNone.names).2.1) ∈ r.headers ∧
      ((processBoxes (some []) envNone.names).1 = 0 →
        r.headers = [("X-Objects-Found", "false"), ("X-Detections", "0"),
                     ("X-Confidence-Score", "0.000"),
                     ("X-Processing-Time", fmt3 envNone.procTime),
                     ("Access-Control-Expose-Headers", exposeList)]) :=
  C3_amended_header_always_present envNone fileJpeg (mkRat 1 4) (some []) (by decide) rfl rfl

/-- Claim C4: for every valid upload on which the engine reports zero
detections, `POST /detect` returns a body byte-for-byte identical to the
uploaded bytes, with the response content type equal to the upload's declared
content type (lines 187-191 stream the original `contents`). -/
theorem C4_no_detection_roundtrip (env : Env) (file : UploadFile) (c : ℚ)
    (boxes : Option (List RawDetection))
    (hct : file.content_type ∈ allowedTypes) (hdec : env.decode = .ok ())
    (hpred : env.predict c = .ok boxes)
    (hzero : (processBoxes boxes env.names).1 = 0) :
    detect_objects env file c =
      DetectOutcome.ok
        { body := file.contents, media_type := file.content_type,
          headers := buildHeaders 0 0 env.procTime } := by
  have hshape := detect_objects_success_shape env file c boxes hct hdec hpred
  rw [hshape, if_neg (by omega)]
  rw [hzero, processBoxes_max_zero boxes env.names hzero]

/-- Claim C4 witness: the concrete no-detection JPEG run streams back the
original four uploaded bytes as `image/jpeg`. -/
theorem C4_witness :
    detect_objects envNone fileJpeg (mkRat 1 4) =
      DetectOutcome.ok
        { body := fileJpeg.contents, media_type := fileJpeg.content_type,
          headers := buildHeaders 0 0 envNone.procTime } :=
  C4_no_detection_roundtrip envNone fileJpeg (mkRat 1 4) (some []) (by decide) rfl rfl rfl

/-- Claim C5 counterexample: a single raw detection with confidence exactly 0.0
— which lies in the claimed range `[0,1]` — aggregates to a maximum confidence
of 0.0 with a nonzero count, so "maxConfidence equals 0.0 if and only if the
detection count is 0" is false in the only-if direction. -/
theorem C5_counterexample :
    (processBoxes (some [{ cls := 0, conf := 0, bbox := [0, 0, 1, 1] }])
      (fun _ => "x")).2.1 = 0 ∧
    (processBoxes (some [{ cls := 0, conf := 0, bbox := [0, 0, 1, 1] }])
      (fun _ => "x")).1 ≠ 0 :=
  ⟨rfl, by decide⟩

/-- Claim C5 amended: when the count is 0 the aggregated maxConfidence is 0.0;
when the count is nonzero, maxConfidence is exactly the true maximum of the raw
confidences (an element of the list bounding every element), with rounding
applied only at header serialization — the equivalence claimed originally also
needs every confidence to be positive, since a maximum of 0.0 can coexist with
a nonzero count when all confidences are 0.0. -/
theorem C5_amended_max_confidence (bs : List RawDetection) (names : Nat → String) :
    (bs = [] → (processBoxes (some bs) names).2.1 = 0) ∧
    (bs ≠ [] →
      (processBoxes (some bs) names).2.1 ∈ bs.map (fun b => b.conf) ∧
      ∀ q ∈ bs.map (fun b => b.conf), q ≤ (processBoxes (some bs) names).2.1) := by
  constructor
  · rintro rfl; rfl
  · intro hne
    obtain ⟨b, bs', rfl⟩ := List.exists_cons_of_ne_nil hne
    constructor
    · simpa [processBoxes] using npMax_mem b.conf (bs'.map (fun x => x.conf))
    · intro q hq
      have h := le_npMax b.conf (bs'.map (fun x => x.conf)) q (by simpa using hq)
      simpa [processBoxes] using h

/-- Claim C5 amended, witness: on the singleton detection list the aggregated
maximum is an element of the confidence list and bounds it. -/
theorem C5_amended_witness :
    (processBoxes (some [detOne]) (fun _ => "coyote")).2.1
        ∈ [detOne].map (fun b => b.conf) ∧
    ∀ q ∈ [detOne].map (fun b => b.conf),
      q ≤ (processBoxes (some [detOne]) (fun _ => "coyote")).2.1 :=
  (C5_amended_max_confidence [detOne] (fun _ => "coyote")).2 (by simp)

/-- Claim C6: aggregation neither discards nor adds entries and preserves the
engine's order — the reported count and the detections-list length both equal
the number of raw detections, and the list is exactly the raw list mapped
entry-by-entry (in order) to its class-resolved form. -/
theorem C6_aggregation_preserves_entries (boxes : Option (List RawDetection))
    (names : Nat → String) :
    (processBoxes boxes names).1 = (boxes.getD []).length ∧
    (processBoxes boxes names).2.2 =
      (boxes.getD []).map
        (fun b => { className := names b.cls, confidence := b.conf, bbox := b.bbox }) := by
  match boxes with
  | none => exact ⟨rfl, rfl⟩
  | some [] => exact ⟨rfl, rfl⟩
  | some (b :: bs') => constructor <;> simp [processBoxes]

/-- Claim C7: on every valid upload with at least one detection, `POST /detect`
returns the annotated image re-encoded as PNG with content type `image/png`,
with `X-Objects-Found=true`, `X-Detections` equal to the count,
`X-Confidence-Score` and `X-Processing-Time` fixed three-decimal strings, and
`Access-Control-Expose-Headers` naming every custom header set. -/
theorem C7_detections_present_response (env : Env) (file : UploadFile) (c : ℚ)
    (bs : List RawDetection)
    (hct : file.content_type ∈ allowedTypes) (hdec : env.decode = .ok ())
    (hpred : env.predict c = .ok (some bs)) (hne : bs ≠ []) :
    detect_objects env file c =
      DetectOutcome.ok
        { body := env.plotPng, media_type := "image/png",
          headers := buildHeaders bs.length (npMax (bs.map (fun b => b.conf)))
            env.procTime } ∧
    ("X-Objects-Found", "true")
      ∈ buildHeaders bs.length (npMax (bs.map (fun b => b.conf))) env.procTime ∧
    ("X-Detections", toString bs.length)
      ∈ buildHeaders bs.length (npMax (bs.map (fun b => b.conf))) env.procTime ∧
    ("X-Confidence-Score", fmt3 (npMax (bs.map (fun b => b.conf))))
      ∈ buildHeaders bs.length (npMax (bs.map (fun b => b.conf))) env.procTime ∧
    ("X-Processing-Time", fmt3 env.procTime)
      ∈ buildHeaders bs.length (npMax (bs.map (fun b => b.conf))) env.procTime ∧
    ("Access-Control-Expose-Headers", exposeList)
      ∈ buildHeaders bs.length (npMax (bs.map (fun b => b.conf))) env.procTime ∧
    Fixed3 (fmt3 (npMax (bs.map (fun b => b.conf)))) ∧
    Fixed3 (fmt3 env.procTime) ∧
    exposeList = String.intercalate ", " exposedNames ∧
    ∀ kv ∈ buildHeaders bs.length (npMax (bs.map (fun b => b.conf))) env.procTime,
      kv.1 = "Access-Control-Expose-Headers" ∨ kv.1 ∈ exposedNames := by
  obtain ⟨b, bs', rfl⟩ := List.exists_cons_of_ne_nil hne
  have hpos : (processBoxes (some (b :: bs')) env.names).1 > 0 := by
    simp [processBoxes]
  have hagg1 : (processBoxes (some (b :: bs')) env.names).1 = (b :: bs').length := by
    simp [processBoxes]
  have hagg2 : (processBoxes (some (b :: bs')) env.names).2.1 =
      npMax ((b :: bs').map (fun x => x.conf)) := by
    simp [processBoxes, npMax]
  refine ⟨?_, ?_, ?_, ?_, ?_, ?_, fmt3_fixed3 _, fmt3_fixed3 _, by decide, ?_⟩
  · rw [detect_objects_success_shape env file c (some (b :: bs')) hct hdec hpred,
      if_pos hpos, hagg1, hagg2]
  · simp [buildHeaders]
  · simp [buildHeaders]
  · simp [buildHeaders]
  · simp [buildHeaders]
  · simp [buildHeaders]
  · intro kv hkv
    simp [buildHeaders] at hkv
    rcases hkv with h | h | h | h | h <;> subst h <;> simp [exposedNames]

/-- Claim C7 witness: the single-detection JPEG run returns the PNG plot bytes
as `image/png` with the headers built from count 1 and maximum 0.91. -/
theorem C7_witness :
    detect_objects envOne fileJpeg (mkRat 1 4) =
      DetectOutcome.ok
        { body := envOne.plotPng, media_type := "image/png",
          headers := buildHeaders [detOne].length
            (npMax ([detOne].map (fun b => b.conf))) envOne.procTime } :=
  (C7_detections_present_response envOne fileJpeg (mkRat 1 4) [detOne]
    (by decide) rfl rfl (by simp)).1

/-- Claim C8: every successful `/detect-json` request returns a status-200
document with `success=true`, the objects-found flag, detection count, max
confidence, processing time, the detections list, the filename, and an image
field that is a data-URI beginning with `data:image/png;base64,` when
detections are present, otherwise a data-URI of the original bytes using the
upload's declared media type. -/
theorem C8_json_success_document (env : Env) (file : UploadFile) (c : ℚ)
    (boxes : Option (List RawDetection))
    (hct : file.content_type ∈ allowedTypes) (hdec : env.decode = .ok ())
    (hpred : env.predict c = .ok boxes) :
    detect_objects_json env file c =
      { status_code := 200,
        body := JsonBody.success (decide ((processBoxes boxes env.names).1 > 0))
          (processBoxes boxes env.names).1 (processBoxes boxes env.names).2.1
          env.procTime (processBoxes boxes env.names).2.2 file.filename
          (if (processBoxes boxes env.names).1 > 0 then
            "data:image/png;base64," ++ env.b64 env.plotPng
          else
            "data:" ++ file.content_type ++ ";base64," ++ env.b64 file.contents) } ∧
    ((processBoxes boxes env.names).1 > 0 →
      ∃ rest,
        (if (processBoxes boxes env.names).1 > 0 then
          "data:image/png;base64," ++ env.b64 env.plotPng
        else
          "data:" ++ file.content_type ++ ";base64," ++ env.b64 file.contents) =
        "data:image/png;base64," ++ rest) ∧
    (¬ (processBoxes boxes env.names).1 > 0 →
      ∃ rest,
        (if (processBoxes boxes env.names).1 > 0 then
          "data:image/png;base64," ++ env.b64 env.plotPng
        else
          "data:" ++ file.content_type ++ ";base64," ++ env.b64 file.contents) =
        "data:" ++ file.content_type ++ ";base64," ++ rest) := by
  refine ⟨?_, fun h => ⟨env.b64 env.plotPng, by rw [if_pos h]⟩,
    fun h => ⟨env.b64 file.contents, by rw [if_neg h]⟩⟩
  by_cases hpos : (processBoxes boxes env.names).1 > 0
  · simp [detect_objects_json, hct, hdec, hpred, hpos]
  · simp [detect_objects_json, hct, hdec, hpred, hpos]

/-- Claim C8 witness: the single-detection JPEG run produces the success
document with the PNG data-URI image field. -/
theorem C8_witness :
    detect_objects_json envOne fileJpeg (mkRat 1 4) =
      { status_code := 200,
        body := JsonBody.success
          (decide ((processBoxes (some [detOne]) envOne.names).1 > 0))
          (processBoxes (some [detOne]) envOne.names).1
          (processBoxes (some [detOne]) envOne.names).2.1
          envOne.procTime (processBoxes (some [detOne]) envOne.names).2.2
          fileJpeg.filename
          (if (processBoxes (some [detOne]) envOne.names).1 > 0 then
            "data:image/png;base64," ++ envOne.b64 envOne.plotPng
          else
            "data:" ++ fileJpeg.content_type ++ ";base64," ++
              envOne.b64 fileJpeg.contents) } :=
  (C8_json_success_document envOne fileJpeg (mkRat 1 4) (some [detOne])
    (by decide) rfl rfl).1

/-- Claim C9: a `confidence` query value outside `[0,1]` is rejected by the
framework's declared `Query(0.25, ge=0.0, le=1.0)` bounds with a 422 before
either handler — and hence the engine — runs (the rejection is the same for
every environment); an in-range value reaches the handler unchanged, and an
absent parameter defaults to 0.25. -/
theorem C9_confidence_boundary (env : Env) (file : UploadFile) (c : ℚ) :
    ((c < 0 ∨ 1 < c) → ∃ m,
        detect_route env file (some c) = DetectOutcome.httpError 422 m ∧
        detect_json_route env file (some c) = JsonOutcome.validationError 422 m) ∧
    (0 ≤ c → c ≤ 1 →
        detect_route env file (some c) = detect_objects env file c ∧
        detect_json_route env file (some c) =
          JsonOutcome.response (detect_objects_json env file c)) ∧
    (detect_route env file none = detect_objects env file (1/4) ∧
     detect_json_route env file none =
       JsonOutcome.response (detect_objects_json env file (1/4))) := by
  refine ⟨?_, ?_, rfl, rfl⟩
  · rintro (h | h)
    · exact ⟨"Input should be greater than or equal to 0",
        by simp [detect_route, parseConfidence, h],
        by simp [detect_json_route, parseConfidence, h]⟩
    · have h0 : ¬ c < 0 := not_lt.mpr (le_trans zero_le_one h.le)
      exact ⟨"Input should be less than or equal to 1",
        by simp [detect_route, parseConfidence, h, h0],
        by simp [detect_json_route, parseConfidence, h, h0]⟩
  · intro h0 h1
    have hn0 : ¬ c < 0 := not_lt.mpr h0
    have hn1 : ¬ 1 < c := not_lt.mpr h1
    exact ⟨by simp [detect_route, parseConfidence, hn0, hn1],
      by simp [detect_json_route, parseConfidence, hn0, hn1]⟩

/-- Claim C9 witness: `confidence=2` is rejected with a 422 on both endpoints;
`confidence=0.5` reaches the handlers unchanged. -/
theorem C9_witness :
    (∃ m, detect_route envNone fileJpeg (some 2) = DetectOutcome.httpError 422 m ∧
        detect_json_route envNone fileJpeg (some 2) =
          JsonOutcome.validationError 422 m) ∧
    (detect_route envNone fileJpeg (some (mkRat 1 2)) =
        detect_objects envNone fileJpeg (mkRat 1 2) ∧
     detect_json_route envNone fileJpeg (some (mkRat 1 2)) =
        JsonOutcome.response (detect_objects_json envNone fileJpeg (mkRat 1 2))) :=
  ⟨(C9_confidence_boundary envNone fileJpeg 2).1 (Or.inr (by norm_num)),
   (C9_confidence_boundary envNone fileJpeg (mkRat 1 2)).2.1 (by decide) (by decide)⟩
